import Mathlib

/-!
# Verification of `fetch_supplier_id.py` (Syrve-API-Supplier-Fetcher)

Shallow embedding of the single source file `src/fetch_supplier_id.py`.

The program talks to an HTTP API; the network and the library parsers
(`response.json()`, `xml.etree.ElementTree.fromstring`) are modelled
abstractly: an HTTP response outcome is either a transport/status failure
(`requests.exceptions.RequestException`) or a body, and a body is
characterised by what the two parsers yield on it (`jsonParse`,
`xmlParse`).  Everything after the parse — normalization, lookup, control
flow of `main`, exception propagation and exit codes — is translated
directly from the Python.

Logging calls are not modelled; only control flow, produced data and the
reported outcome are.
-/

namespace SupplierFetcher

/-- Python `str.lower()`, modelled on the ASCII range (characters outside
it are left unchanged), character by character. -/
def pyLower (s : String) : String := String.mk (s.data.map Char.toLower)

/-- Python `str.strip()` with no argument: remove leading and trailing
whitespace. -/
def pyStrip (s : String) : String :=
  String.mk (((s.data.dropWhile Char.isWhitespace).reverse.dropWhile
    Char.isWhitespace).reverse)

/-- Python `dict` with string keys, as an insertion-ordered association
list.  `set` models `d[k] = v`: an existing key keeps its position and
gets the new value, a fresh key is appended. -/
abbrev Dict (α : Type) := List (String × α)

def Dict.get {α : Type} : Dict α → String → Option α
  | [], _ => none
  | (k', v) :: rest, k => if k' == k then some v else Dict.get rest k

def Dict.set {α : Type} : Dict α → String → α → Dict α
  | [], k, v => [(k, v)]
  | (k', v') :: rest, k, v =>
      if k' == k then (k', v) :: rest else (k', v') :: Dict.set rest k v

/-- A Python value as produced by `response.json()`. -/
inductive Json : Type where
  | null : Json
  | bool (b : Bool) : Json
  | num (n : Int) : Json
  | str (s : String) : Json
  | arr (elems : List Json) : Json
  | obj (fields : List (String × Json)) : Json

/-- Model of `isinstance(v, list)` on a parsed JSON value. -/
def Json.isList : Json → Bool
  | .arr _ => true
  | _ => false

/-- The elements of a parsed JSON list (meaningful when `isList`). -/
def Json.asList : Json → List Json
  | .arr xs => xs
  | _ => []

/-- Whether a value is a `dict` (has a `.get` method). -/
def Json.isObj : Json → Bool
  | .obj _ => true
  | _ => false

/-- Python truthiness (`if found_id:`). -/
def Json.truthy : Json → Bool
  | .null => false
  | .bool b => b
  | .num n => n != 0
  | .str s => s != ""
  | .arr xs => !xs.isEmpty
  | .obj fs => !fs.isEmpty

/-- An XML element as seen through `xml.etree.ElementTree`: tag name,
`.text` (the text before the first child element, `None` when absent),
and the list of immediate child elements (iteration over an element
yields exactly these, in document order). -/
inductive Xml : Type where
  | elem (tag : String) (text : Option String) (children : List Xml) : Xml

def Xml.tag : Xml → String
  | .elem t _ _ => t

def Xml.text : Xml → Option String
  | .elem _ t _ => t

def Xml.children : Xml → List Xml
  | .elem _ _ c => c

/-- The exceptions the embedded code can raise past the handlers that
appear in the source: `xml.etree.ElementTree.ParseError` (from
`fromstring` on a body that is not well-formed XML; it is neither a
`ValueError` nor a `requests.exceptions.RequestException`, so no handler
in `fetch_all_suppliers` catches it) and `AttributeError` (from calling
`.get` on a non-dict or `.strip()` on a non-string). -/
inductive PyExn : Type where
  | parseError : PyExn
  | attributeError : PyExn

/-- A response body, characterised by what the two library parsers yield
on it: `jsonParse = some v` iff `response.json()` succeeds with value
`v`, `xmlParse = some root` iff `ElementTree.fromstring` succeeds with
root element `root`. -/
structure Body : Type where
  jsonParse : Option Json
  xmlParse : Option Xml

/-- Outcome of `session.get(url, ...)` followed by
`response.raise_for_status()`: either a `RequestException`
(transport failure or error status) or a body. -/
inductive FetchResp : Type where
  | failure : FetchResp
  | success (body : Body) : FetchResp

/-- Outcome of the `session.post` in `login`: either the response text
(after `raise_for_status` passed) or a `RequestException`. -/
inductive AuthOutcome : Type where
  | success (text : String) : AuthOutcome
  | requestExn : AuthOutcome

/-- Outcome of the `session.post` in `logout`: a status code, or a
`RequestException`. -/
inductive LogoutOutcome : Type where
  | status (code : Nat) : LogoutOutcome
  | requestExn : LogoutOutcome

/-- Which log line `logout` emits; it never raises. -/
inductive LogoutLog : Type where
  | successLog : LogoutLog
  | warnStatusLog : LogoutLog
  | warnExnLog : LogoutLog

/-- Function `login(session)`: on success returns `response.text.strip()` as the
token; on `RequestException` logs and calls `sys.exit(1)`, modelled as
`Except.error` carrying the exit status. -/
def login (o : AuthOutcome) : Except Nat String :=
  match o with
  | .success t => .ok (pyStrip t)
  | .requestExn => .error 1

/-- Function `logout(session, token)`: checks `status_code == 200`, logs
accordingly, catches `RequestException`; total (never raises). -/
def logout (o : LogoutOutcome) : LogoutLog :=
  match o with
  | .status code => if code == 200 then .successLog else .warnStatusLog
  | .requestExn => .warnExnLog

/-- The record built from one `<employee>` element:
`emp_data = {}; for child in emp: emp_data[child.tag] = child.text or ""`. -/
def empRecord (emp : Xml) : Dict String :=
  emp.children.foldl (fun d c => d.set c.tag (c.text.getD "")) []

/-- Lines 91–109 of the source: dispatch on the XML root tag and build
the supplier list.  `root.findall("employee")` returns the immediate
children tagged `employee`, in document order. -/
def xmlToRecords (root : Xml) : List (Dict String) :=
  if root.tag == "employees" then
    (root.children.filter (fun c => c.tag == "employee")).map empRecord
  else if root.tag == "employee" then
    [empRecord root]
  else
    []

/-- Injection of an XML-derived record (a Python `dict` of strings) into
the value type shared with the JSON branch — Python needs no such
injection because it is dynamically typed. -/
def recordToJson (r : Dict String) : Json :=
  .obj (r.map (fun kv => (kv.1, Json.str kv.2)))

/-- Function `fetch_all_suppliers(session, token)` (lines 64–113): on
`RequestException` (transport or HTTP status) returns `[]`; otherwise
tries `response.json()` — a list is returned verbatim, any other JSON
value yields `[]`; on `ValueError` falls back to
`ElementTree.fromstring`, which raises `ParseError` (uncaught here) when
the body is not well-formed XML. -/
def fetch_all_suppliers (resp : FetchResp) : Except PyExn (List Json) :=
  match resp with
  | .failure => .ok []
  | .success body =>
    match body.jsonParse with
    | some suppliers => .ok (if suppliers.isList then suppliers.asList else [])
    | none =>
      match body.xmlParse with
      | none => .error .parseError
      | some root => .ok ((xmlToRecords root).map recordToJson)

/-- Function `fetch_supplier_id(suppliers, supplier_name)` (lines 116–126) on a
list of string-valued records (the spec's `SupplierRecord` shape):
`sup.get("name", "").strip().lower() == supplier_name.lower()`; on the
first match returns `sup.get("id")`. -/
def fetch_supplier_id (suppliers : List (Dict String)) (supplier_name : String) :
    Option String :=
  match suppliers with
  | [] => none
  | sup :: rest =>
    if pyLower (pyStrip ((Dict.get sup "name").getD "")) == pyLower supplier_name then
      Dict.get sup "id"
    else
      fetch_supplier_id rest supplier_name

/-- Model of `.strip().lower()` on a Python value: only strings have these
methods. -/
def pyStripLower : Json → Except PyExn String
  | .str s => .ok (pyLower (pyStrip s))
  | _ => .error .attributeError

/-- Function `fetch_supplier_id` as `main` actually calls it, on the untyped list
returned by `fetch_all_suppliers`: `.get` on a non-dict element and
`.strip()` on a non-string name value raise `AttributeError`. -/
def fetch_supplier_id_dyn (suppliers : List Json) (supplier_name : String) :
    Except PyExn (Option Json) :=
  match suppliers with
  | [] => .ok none
  | sup :: rest =>
    match sup with
    | .obj d =>
      match pyStripLower ((Dict.get d "name").getD (Json.str "")) with
      | .error e => .error e
      | .ok nm =>
        if nm == pyLower supplier_name then .ok (Dict.get d "id")
        else fetch_supplier_id_dyn rest supplier_name
    | _ => .error .attributeError

/-- Function `pretty_print_suppliers` (lines 129–177), modelled only up to its
exceptional behaviour (no claim concerns the rendered table): an empty
list prints a notice and returns; otherwise `s.get(col, "")` raises
`AttributeError` on any non-dict element, and everything else
(`str(...)`, widths, printing) is total. -/
def pretty_print_suppliers (suppliers : List Json) : Except PyExn Unit :=
  if suppliers.isEmpty then .ok ()
  else if suppliers.all (fun s => s.isObj) then .ok ()
  else .error .attributeError

/-- The hardcoded target name in `main` (line 191). -/
def search_name : String := "Лубчук Л.В. ФОП"

/-- Environment of one run: the outcomes of the three HTTP interactions,
which are the only external inputs of `main`. -/
structure Env : Type where
  auth : AuthOutcome
  fetchResp : FetchResp
  logoutOutcome : LogoutOutcome

/-- Observable result of one run: the process exit status (an uncaught
exception exits non-zero, modelled as 1), the `logout` invocations (the
`finally` block), and the reported lookup outcome — `some true` for the
"Найден поставщик" info line, `some false` for the "не найден" warning,
`none` when the report line is never reached. -/
structure RunResult : Type where
  exitCode : Nat
  logoutLogs : List LogoutLog
  report : Option Bool

/-- Function `main()` (lines 180–198): `token = login(session)` (outside the
`try`, so a failed login exits before any `finally` exists), then
`try: fetch / print / search finally: logout`.  An exception raised in
the `try` block still runs `logout` once and then propagates, ending the
process with a non-zero status and no report. -/
def main (env : Env) : RunResult :=
  match login env.auth with
  | .error code => { exitCode := code, logoutLogs := [], report := none }
  | .ok _token =>
    let lg := logout env.logoutOutcome
    match fetch_all_suppliers env.fetchResp with
    | .error _ => { exitCode := 1, logoutLogs := [lg], report := none }
    | .ok suppliers =>
      match pretty_print_suppliers suppliers with
      | .error _ => { exitCode := 1, logoutLogs := [lg], report := none }
      | .ok _ =>
        match fetch_supplier_id_dyn suppliers search_name with
        | .error _ => { exitCode := 1, logoutLogs := [lg], report := none }
        | .ok found =>
          { exitCode := 0, logoutLogs := [lg],
            report := some (match found with
                            | some v => v.truthy
                            | none => false) }

/-! ## Helper lemmas -/

/-- The last immediate child carrying a given tag, in document order. -/
def lastWithTag (children : List Xml) (t : String) : Option Xml :=
  match children with
  | [] => none
  | c :: rest =>
    match lastWithTag rest t with
    | some c' => some c'
    | none => if c.tag == t then some c else none

theorem Dict.get_set {α : Type} (d : Dict α) (k k₂ : String) (v : α) :
    Dict.get (Dict.set d k v) k₂ = if k == k₂ then some v else Dict.get d k₂ := by
  induction d with
  | nil => simp [Dict.set, Dict.get]
  | cons kv rest ih =>
    obtain ⟨k', v'⟩ := kv
    by_cases h1 : k' = k
    · subst h1
      by_cases h2 : k' = k₂ <;> simp [Dict.set, Dict.get, h2]
    · by_cases h3 : k' = k₂
      · subst h3
        simp [Dict.set, Dict.get, h1, Ne.symm h1]
      · simp [Dict.set, Dict.get, h1, h3, ih]

theorem get_foldl_set (cs : List Xml) (d : Dict String) (t : String) :
    Dict.get (cs.foldl (fun d c => d.set c.tag (c.text.getD "")) d) t
      = match lastWithTag cs t with
        | some c => some (c.text.getD "")
        | none => Dict.get d t := by
  induction cs generalizing d with
  | nil => simp [lastWithTag]
  | cons c rest ih =>
    simp only [List.foldl_cons, ih, lastWithTag]
    cases h : lastWithTag rest t with
    | some c' => simp
    | none =>
      simp only [Dict.get_set]
      by_cases hc : c.tag = t <;> simp [hc]

/-- Looking a tag up in the record built from an `employee` element finds
the text of the last immediate child carrying that tag. -/
theorem get_empRecord (emp : Xml) (t : String) :
    Dict.get (empRecord emp) t
      = (lastWithTag emp.children t).map (fun c => c.text.getD "") := by
  rw [empRecord, get_foldl_set]
  cases lastWithTag emp.children t <;> simp [Dict.get]

theorem lastWithTag_append (l₁ l₂ : List Xml) (t : String) :
    lastWithTag (l₁ ++ l₂) t
      = match lastWithTag l₂ t with
        | some c => some c
        | none => lastWithTag l₁ t := by
  induction l₁ with
  | nil => simp [lastWithTag]; cases lastWithTag l₂ t <;> rfl
  | cons c rest ih =>
    have hc : lastWithTag ((c :: rest) ++ l₂) t
        = match lastWithTag (rest ++ l₂) t with
          | some c' => some c'
          | none => if c.tag == t then some c else none := rfl
    have hr : lastWithTag (c :: rest) t
        = match lastWithTag rest t with
          | some c' => some c'
          | none => if c.tag == t then some c else none := rfl
    rw [hc, ih, hr]
    cases lastWithTag l₂ t with
    | some c' => rfl
    | none =>
      cases lastWithTag rest t with
      | some c' => rfl
      | none => rfl

theorem lastWithTag_eq_none (l : List Xml) (t : String)
    (h : ∀ c ∈ l, c.tag ≠ t) : lastWithTag l t = none := by
  induction l with
  | nil => rfl
  | cons c rest ih =>
    simp only [lastWithTag]
    rw [ih (fun c hc => h c (List.mem_cons_of_mem _ hc))]
    simp [h c (List.mem_cons_self c rest)]

theorem Dict.get_map_str (r : Dict String) (k : String) :
    Dict.get (r.map (fun kv => (kv.1, Json.str kv.2))) k
      = (Dict.get r k).map Json.str := by
  induction r with
  | nil => rfl
  | cons kv rest ih =>
    by_cases h : kv.1 = k <;> simp [Dict.get, h, ih]

/-- On a list of XML-derived records, the untyped lookup of `main` agrees
with `fetch_supplier_id` on the underlying string records and never
raises. -/
theorem map_str_getD (o : Option String) :
    (o.map Json.str).getD (Json.str "") = Json.str (o.getD "") := by
  cases o <;> rfl

theorem fetch_supplier_id_dyn_map (rs : List (Dict String)) (n : String) :
    fetch_supplier_id_dyn (rs.map recordToJson) n
      = .ok ((fetch_supplier_id rs n).map Json.str) := by
  induction rs with
  | nil => rfl
  | cons r rest ih =>
    simp only [List.map_cons, fetch_supplier_id_dyn, fetch_supplier_id,
      recordToJson, Dict.get_map_str, map_str_getD, pyStripLower]
    by_cases hc : pyLower (pyStrip ((Dict.get r "name").getD "")) = pyLower n <;>
      simp [hc, ih, Dict.get_map_str]

theorem pretty_print_map (rs : List (Dict String)) :
    pretty_print_suppliers (rs.map recordToJson) = .ok () := by
  cases rs with
  | nil => rfl
  | cons r rest =>
    simp [pretty_print_suppliers, recordToJson, Json.isObj]

/-- Lemma: `fetch_supplier_id` is the first-match linear scan: the result is the
`id` field of the first record whose stripped, lowercased name equals the
lowercased (but not stripped) query. -/
theorem fetch_supplier_id_eq_find (rs : List (Dict String)) (n : String) :
    fetch_supplier_id rs n
      = (rs.find? (fun s => pyLower (pyStrip ((Dict.get s "name").getD "")) == pyLower n)).bind
          (fun s => Dict.get s "id") := by
  induction rs with
  | nil => rfl
  | cons r rest ih =>
    by_cases h : pyLower (pyStrip ((Dict.get r "name").getD "")) = pyLower n <;>
      simp [fetch_supplier_id, List.find?_cons, h, ih]

theorem find?_first_match {α : Type} (p : α → Bool) (pre post : List α) (r : α)
    (hpre : ∀ s ∈ pre, ¬ p s) (hr : p r) :
    (pre ++ r :: post).find? p = some r := by
  induction pre with
  | nil => simp [List.find?_cons, hr]
  | cons a rest ih =>
    have ha : p a = false := by
      simpa using hpre a (List.mem_cons_self a rest)
    simp only [List.cons_append, List.find?_cons, ha, cond_false]
    exact ih (fun s hs => hpre s (List.mem_cons_of_mem a hs))

/-! ## The claims -/

/-- C1 (counterexample): the claim says a body that is neither valid JSON
nor well-formed XML is handled non-fatally — logged, zero records, run
continues to the report.  On the code, `ElementTree.fromstring` raises
`ParseError`, which no handler in `fetch_all_suppliers` catches: the
fetch returns no record list, the report line is never reached, and the
process exits non-zero. -/
theorem C1_counterexample :
    fetch_all_suppliers (FetchResp.success { jsonParse := none, xmlParse := none })
      = Except.error PyExn.parseError
    ∧ (main { auth := AuthOutcome.success "tok", fetchResp := FetchResp.success { jsonParse := none, xmlParse := none }, logoutOutcome := LogoutOutcome.status 200 }).report = none
    ∧ (main { auth := AuthOutcome.success "tok", fetchResp := FetchResp.success { jsonParse := none, xmlParse := none }, logoutOutcome := LogoutOutcome.status 200 }).exitCode ≠ 0 :=
  ⟨rfl, rfl, by decide⟩

/-- C1 (amended): for every body that is neither valid JSON nor
well-formed XML, the XML parse raises `ParseError`; the error propagates
out of the directory fetch uncaught, so the run performs teardown exactly
once (the `finally` block) but skips the report and exits non-zero. -/
theorem C1_malformed_raises (tok : String) (lo : LogoutOutcome) :
    fetch_all_suppliers (FetchResp.success { jsonParse := none, xmlParse := none })
      = Except.error PyExn.parseError
    ∧ main { auth := AuthOutcome.success tok, fetchResp := FetchResp.success { jsonParse := none, xmlParse := none }, logoutOutcome := lo }
      = { exitCode := 1, logoutLogs := [logout lo], report := none } :=
  ⟨rfl, rfl⟩

/-- C2 (counterexample): the claim says the name match trims whitespace
on both sides.  The code trims only the record side: the record named
`"foo"` (id `"1"`) and the query `" foo"` are equal after stripping and
lowering both sides, yet the lookup returns `none`, not `some "1"`. -/
theorem C2_counterexample :
    fetch_supplier_id [[("name", "foo"), ("id", "1")]] " foo" = none
    ∧ pyLower (pyStrip " foo") = pyLower (pyStrip "foo") := by
  exact ⟨by decide, by decide⟩

/-- C2 (amended): `fetch_supplier_id` returns the `id` field of the
first record, in sequence order, whose name — stripped and case-folded —
equals the case-folded but *unstripped* query; it returns `none` (no
record matched, or the first matching record has no `id` field) without
raising otherwise. -/
theorem C2_find_first (rs : List (Dict String)) (n : String) :
    fetch_supplier_id rs n
      = (rs.find? (fun s => pyLower (pyStrip ((Dict.get s "name").getD "")) == pyLower n)).bind
          (fun s => Dict.get s "id") :=
  fetch_supplier_id_eq_find rs n

/-- C3 (counterexample): the claim says a non-zero exit happens only when
authentication fails.  Here authentication succeeds (the token `"tok"` is
returned) and yet the run exits non-zero, because the directory body
parses as neither JSON nor XML. -/
theorem C3_counterexample :
    login (AuthOutcome.success "tok") = Except.ok "tok"
    ∧ (main { auth := AuthOutcome.success "tok", fetchResp := FetchResp.success { jsonParse := none, xmlParse := none }, logoutOutcome := LogoutOutcome.status 200 }).exitCode ≠ 0 := by
  exact ⟨rfl, by decide⟩

/-- C3 (amended): the process exits 0 exactly when authentication
succeeds and no step of the `try` block raises: the fetch returns a
record list (possibly empty — "supplier not found" still exits 0), the
table renders, and the lookup completes.  Authentication failure exits
non-zero, and so does any uncaught exception (malformed body, non-dict
or non-string-name JSON elements). -/
theorem C3_exit_code (env : Env) :
    (main env).exitCode = 0 ↔
      (∃ tok, env.auth = AuthOutcome.success tok)
      ∧ ∃ sup, fetch_all_suppliers env.fetchResp = Except.ok sup
          ∧ pretty_print_suppliers sup = Except.ok ()
          ∧ ∃ r, fetch_supplier_id_dyn sup search_name = Except.ok r := by
  obtain ⟨auth, fr, lo⟩ := env
  cases auth with
  | requestExn => simp [main, login]
  | success t =>
    simp only [main, login]
    cases h1 : fetch_all_suppliers fr with
    | error e => simp [h1]
    | ok sup =>
      cases h2 : pretty_print_suppliers sup with
      | error e => simp [h1, h2]
      | ok u =>
        cases u
        cases h3 : fetch_supplier_id_dyn sup search_name with
        | error e => simp [h1, h2, h3]
        | ok r => simp [h1, h2, h3]

/-- C3 (witness): a concrete normal run — authentication succeeds, the
body is a JSON supplier list, the target is absent — exits 0. -/
theorem C3_witness :
    (main { auth := AuthOutcome.success "tok", fetchResp := FetchResp.success { jsonParse := some (Json.arr []), xmlParse := none }, logoutOutcome := LogoutOutcome.status 200 }).exitCode = 0 :=
  (C3_exit_code _).mpr ⟨⟨"tok", rfl⟩, [], rfl, rfl, none, rfl⟩

/-- C4 (confirmed): a body parsing as a top-level JSON array is returned
as that list of elements verbatim, and a body parsing as any non-array
JSON value yields the empty list without error. -/
theorem C4_json_roundtrip :
    (∀ (x : Option Xml) (xs : List Json),
       fetch_all_suppliers (FetchResp.success { jsonParse := some (Json.arr xs), xmlParse := x })
         = Except.ok xs)
    ∧ (∀ (x : Option Xml) (v : Json), (∀ xs, v ≠ Json.arr xs) →
       fetch_all_suppliers (FetchResp.success { jsonParse := some v, xmlParse := x })
         = Except.ok []) := by
  constructor
  · intro x xs
    rfl
  · intro x v hv
    cases v with
    | arr xs => exact absurd rfl (hv xs)
    | null => rfl
    | bool b => rfl
    | num n => rfl
    | str s => rfl
    | obj fs => rfl

/-- C4 (witness): the round trip at a one-element array, and the empty
result at a non-array (object) top level. -/
theorem C4_witness :
    fetch_all_suppliers (FetchResp.success { jsonParse := some (Json.arr [Json.str "a"]), xmlParse := none })
      = Except.ok [Json.str "a"]
    ∧ fetch_all_suppliers (FetchResp.success { jsonParse := some (Json.obj []), xmlParse := none })
      = Except.ok [] :=
  ⟨C4_json_roundtrip.1 none [Json.str "a"],
   C4_json_roundtrip.2 none (Json.obj []) (fun _ h => Json.noConfusion h)⟩

/-- C5 (counterexample): the claim says each record maps every immediate
child element's tag name to *its* text content.  With two children both
tagged `a` (texts `"1"` and `"2"`), the produced record holds only
`"2"`: the first child's tag does not map to the first child's text. -/
theorem C5_counterexample :
    xmlToRecords (Xml.elem "employee" none [Xml.elem "a" (some "1") [], Xml.elem "a" (some "2") []])
      = [[("a", "2")]]
    ∧ ¬ (∀ c ∈ [Xml.elem "a" (some "1") [], Xml.elem "a" (some "2") []],
          Dict.get [("a", "2")] c.tag = some (c.text.getD "")) := by
  exact ⟨by decide, by decide⟩

/-- C5 (amended): an `employees` root yields one record per immediate
`employee` child and a bare `employee` root yields exactly one record;
each record maps a tag to the text content (empty string when absent) of
the *last* immediate child bearing that tag — which is the child's own
text whenever tags are not repeated — and holds no other keys. -/
theorem C5_xml_records :
    (∀ (emp : Xml) (t : String),
       Dict.get (empRecord emp) t
         = (lastWithTag emp.children t).map (fun c => c.text.getD ""))
    ∧ (∀ root : Xml, root.tag = "employees" →
       xmlToRecords root
         = (root.children.filter (fun c => c.tag == "employee")).map empRecord)
    ∧ (∀ root : Xml, root.tag = "employee" →
       xmlToRecords root = [empRecord root]) := by
  refine ⟨get_empRecord, ?_, ?_⟩
  · intro root h
    simp [xmlToRecords, h]
  · intro root h
    simp [xmlToRecords, h]

/-- C5 (witness): the amended statement applied to a concrete container
root, a concrete bare root, and a concrete tag lookup. -/
theorem C5_witness :
    Dict.get (empRecord (Xml.elem "employee" none [Xml.elem "id" (some "7") []])) "id"
      = (lastWithTag [Xml.elem "id" (some "7") []] "id").map (fun c => c.text.getD "")
    ∧ xmlToRecords (Xml.elem "employees" none [Xml.elem "employee" none []])
      = ([Xml.elem "employee" none []].filter (fun c => c.tag == "employee")).map empRecord
    ∧ xmlToRecords (Xml.elem "employee" (some "x") [])
      = [empRecord (Xml.elem "employee" (some "x") [])] :=
  ⟨C5_xml_records.1 (Xml.elem "employee" none [Xml.elem "id" (some "7") []]) "id",
   C5_xml_records.2.1 (Xml.elem "employees" none [Xml.elem "employee" none []]) rfl,
   C5_xml_records.2.2 (Xml.elem "employee" (some "x") []) rfl⟩

/-- C6 (confirmed): a well-formed XML body whose root tag is neither
`employees` nor `employee` normalizes to the empty sequence — the fetch
returns `Except.ok []`, it does not raise. -/
theorem C6_unknown_root (root : Xml)
    (h1 : root.tag ≠ "employees") (h2 : root.tag ≠ "employee") :
    xmlToRecords root = []
    ∧ fetch_all_suppliers (FetchResp.success { jsonParse := none, xmlParse := some root })
        = Except.ok [] := by
  have hx : xmlToRecords root = [] := by
    simp [xmlToRecords, h1, h2]
  exact ⟨hx, by simp [fetch_all_suppliers, hx]⟩

/-- C6 (witness): the unrecognized root tag `stuff` yields zero records
and no error. -/
theorem C6_witness :
    xmlToRecords (Xml.elem "stuff" none [Xml.elem "employee" none []]) = []
    ∧ fetch_all_suppliers (FetchResp.success { jsonParse := none, xmlParse := some (Xml.elem "stuff" none [Xml.elem "employee" none []]) })
        = Except.ok [] :=
  C6_unknown_root (Xml.elem "stuff" none [Xml.elem "employee" none []]) (by decide) (by decide)

/-- C7 (confirmed): on every run in which authentication succeeds —
whatever the directory fetch returns and however the `try` block ends —
`logout` is invoked exactly once (the `finally` block of `main`). -/
theorem C7_logout_once (tok : String) (fr : FetchResp) (lo : LogoutOutcome) :
    (main { auth := AuthOutcome.success tok, fetchResp := fr, logoutOutcome := lo }).logoutLogs
      = [logout lo] := by
  cases h1 : fetch_all_suppliers fr with
  | error e => simp [main, login, h1]
  | ok sup =>
    cases h2 : pretty_print_suppliers sup with
    | error e => simp [main, login, h1, h2]
    | ok u =>
      cases u
      cases h3 : fetch_supplier_id_dyn sup search_name with
      | error e => simp [main, login, h1, h2, h3]
      | ok r => simp [main, login, h1, h2, h3]

/-- C8 (confirmed): a transport or HTTP-status failure of the directory
request makes `fetch_all_suppliers` return the empty list, and the run
still reaches teardown (one `logout` call), reports "not found" and
exits 0. -/
theorem C8_fetch_failure_nonfatal (tok : String) (lo : LogoutOutcome) :
    fetch_all_suppliers FetchResp.failure = Except.ok []
    ∧ main { auth := AuthOutcome.success tok, fetchResp := FetchResp.failure, logoutOutcome := lo }
        = { exitCode := 0, logoutLogs := [logout lo], report := some false } :=
  ⟨rfl, rfl⟩

/-- C9 (confirmed): when an `employee` element has two or more immediate
children with the same tag (`c₁` before `c₂`, no later child with that
tag), the record built from it holds, under that tag, only the text of
the last such child in document order. -/
theorem C9_duplicate_tags_last_wins (etag : String) (etext : Option String)
    (pre mid post : List Xml) (c₁ c₂ : Xml)
    (hdup : c₂.tag = c₁.tag) (hpost : ∀ d ∈ post, d.tag ≠ c₁.tag) :
    Dict.get (empRecord (Xml.elem etag etext (pre ++ c₁ :: (mid ++ c₂ :: post)))) c₁.tag
      = some (c₂.text.getD "") := by
  rw [get_empRecord]
  have hchildren : (Xml.elem etag etext (pre ++ c₁ :: (mid ++ c₂ :: post))).children
      = pre ++ c₁ :: (mid ++ c₂ :: post) := rfl
  rw [hchildren]
  have h2 : lastWithTag (c₂ :: post) c₁.tag = some c₂ := by
    simp only [lastWithTag]
    rw [lastWithTag_eq_none post c₁.tag hpost]
    simp [hdup]
  have h3 : lastWithTag (mid ++ c₂ :: post) c₁.tag = some c₂ := by
    rw [lastWithTag_append, h2]
  have h4 : lastWithTag (c₁ :: (mid ++ c₂ :: post)) c₁.tag = some c₂ := by
    simp only [lastWithTag]
    rw [h3]
  rw [lastWithTag_append, h4]
  rfl

/-- C9 (witness): two children tagged `a` with texts `"1"` then `"2"`;
the record lookup of `a` yields `"2"`. -/
theorem C9_witness :
    Dict.get (empRecord (Xml.elem "employee" none ([] ++ Xml.elem "a" (some "1") [] :: ([] ++ Xml.elem "a" (some "2") [] :: [])))) (Xml.elem "a" (some "1") []).tag
      = some ((Xml.elem "a" (some "2") []).text.getD "") :=
  C9_duplicate_tags_last_wins "employee" none [] [] []
    (Xml.elem "a" (some "1") []) (Xml.elem "a" (some "2") []) rfl (by decide)

/-- C10 (confirmed): when the first record whose name matches the query
has no `id` field, `fetch_supplier_id` returns `none` — the same value
as when no record matches at all — and, when the query is the hardcoded
target of `main`, the run logs the "not found" warning even though a
matching record exists. -/
theorem C10_missing_id_not_found (pre post : List (Dict String)) (r : Dict String)
    (target tok : String) (lo : LogoutOutcome)
    (hpre : ∀ s ∈ pre, pyLower (pyStrip ((Dict.get s "name").getD "")) ≠ pyLower target)
    (hr : pyLower (pyStrip ((Dict.get r "name").getD "")) = pyLower target)
    (hid : Dict.get r "id" = none) :
    fetch_supplier_id (pre ++ r :: post) target = none
    ∧ (target = search_name →
       (main { auth := AuthOutcome.success tok, fetchResp := FetchResp.success { jsonParse := some (Json.arr ((pre ++ r :: post).map recordToJson)), xmlParse := none }, logoutOutcome := lo }).report
         = some false) := by
  have h1 : fetch_supplier_id (pre ++ r :: post) target = none := by
    rw [fetch_supplier_id_eq_find]
    rw [find?_first_match _ pre post r (by simpa using hpre) (by simpa using hr)]
    simpa using hid
  refine ⟨h1, fun ht => ?_⟩
  subst ht
  have hf : fetch_all_suppliers (FetchResp.success { jsonParse := some (Json.arr ((pre ++ r :: post).map recordToJson)), xmlParse := none })
      = Except.ok ((pre ++ r :: post).map recordToJson) := rfl
  simp only [main, login, hf, pretty_print_map, fetch_supplier_id_dyn_map, h1]
  rfl

/-- C10 (witness): a single record named exactly like the hardcoded
target but without an `id` field; the lookup is `none` and the run
reports "not found". -/
theorem C10_witness :
    fetch_supplier_id ([] ++ [("name", "Лубчук Л.В. ФОП")] :: []) search_name = none
    ∧ (search_name = search_name →
       (main { auth := AuthOutcome.success "t", fetchResp := FetchResp.success { jsonParse := some (Json.arr (([] ++ [("name", "Лубчук Л.В. ФОП")] :: []).map recordToJson)), xmlParse := none }, logoutOutcome := LogoutOutcome.status 200 }).report
         = some false) :=
  C10_missing_id_not_found [] [] [("name", "Лубчук Л.В. ФОП")] search_name "t"
    (LogoutOutcome.status 200) (by decide) (by decide) (by decide)

end SupplierFetcher
